import Mathlib

/-!
Verification model of the kaya-backend CSV ingestion pipeline.

The definitions below are a shallow embedding of the Python code in
`app/services/data_processor.py`, `app/api/ingestion.py` and
`app/utils/bigquery_client.py`.  Python strings are Lean `String`s,
`datetime` values are the `DT` structure (microseconds are not modelled:
no claim depends on them), Python `float` is the `PyFloat` type whose
finite values are exact scaled decimals (binary64 rounding is not
modelled; no claim depends on rounding, and the special values
`nan`/`inf` are modelled exactly), and raised exceptions are `Except`
errors.  `hashlib.md5(s.encode()).hexdigest()[:16]` and `str(float)`
are external library functions; they enter the model as explicit
function parameters `h16` and `fr`.  All recursion is structural so
that every definition evaluates inside the kernel.
-/

namespace Kaya

/-! ## String utilities (kernel-evaluable replacements for library ops) -/

/-- ASCII/Python `\s` whitespace characters. -/
def isPySpace (c : Char) : Bool :=
  c = ' ' || c = '\t' || c = '\n' || c = '\r' || c = '\x0b' || c = '\x0c'

/-- `str.strip()` on a character list. -/
def pyStripL (cs : List Char) : List Char :=
  ((cs.dropWhile isPySpace).reverse.dropWhile isPySpace).reverse

/-- Python `str.strip()`. -/
def pyStrip (s : String) : String := ⟨pyStripL s.toList⟩

/-- Python `str.lower()` (ASCII range, which covers all inputs used here). -/
def strLower (s : String) : String := ⟨s.toList.map Char.toLower⟩

/-- Split a character list on a separator character (no quoting), like the
`csv` module on simple unquoted fields. -/
def splitOnCharAux (sep : Char) : List Char → List Char → List (List Char)
  | [], acc => [acc.reverse]
  | c :: cs, acc =>
    if c = sep then acc.reverse :: splitOnCharAux sep cs []
    else splitOnCharAux sep cs (c :: acc)

def splitOnChar (sep : Char) (cs : List Char) : List (List Char) :=
  splitOnCharAux sep cs []

/-- Python `needle in hay` substring test. -/
def containsSubL : List Char → List Char → Bool
  | [], needle => needle.isEmpty
  | c :: t, needle => needle.isPrefixOf (c :: t) || containsSubL t needle

/-- Python `needle in hay` on strings. -/
def containsStr (hay needle : String) : Bool := containsSubL hay.toList needle.toList

/-- `str.endswith(suffix)`. -/
def strEndsWith (s sfx : String) : Bool :=
  sfx.toList.reverse.isPrefixOf s.toList.reverse

/-- Join a list of strings with a separator, like `sep.join(l)`. -/
def joinSep (sep : String) : List String → String
  | [] => ""
  | [x] => x
  | x :: y :: rest => x ++ sep ++ joinSep sep (y :: rest)

def digitVal (c : Char) : Nat := c.toNat - 48

/-! ## Datetime model (`datetime.datetime` without microseconds) -/

structure DT where
  year : Nat
  month : Nat
  day : Nat
  hour : Nat := 0
  minute : Nat := 0
  second : Nat := 0
deriving DecidableEq, Repr

def pad2 (n : Nat) : String := if n < 10 then "0" ++ Nat.repr n else Nat.repr n

def pad4 (n : Nat) : String :=
  if n < 10 then "000" ++ Nat.repr n
  else if n < 100 then "00" ++ Nat.repr n
  else if n < 1000 then "0" ++ Nat.repr n
  else Nat.repr n

/-- `datetime.isoformat()` for a microsecond-free datetime. -/
def DT.iso (d : DT) : String :=
  pad4 d.year ++ "-" ++ pad2 d.month ++ "-" ++ pad2 d.day ++ "T" ++
    pad2 d.hour ++ ":" ++ pad2 d.minute ++ ":" ++ pad2 d.second

/-- `datetime.strftime('%Y-%m-%d')`. -/
def DT.dateStr (d : DT) : String :=
  pad4 d.year ++ "-" ++ pad2 d.month ++ "-" ++ pad2 d.day

/-! ## `datetime.strptime` for the ten formats used by `DataProcessor.parse_date`

Python's `_strptime` compiles each directive to a regex fragment; the
fragments for the directives used here are
`%Y ~ \d\d\d\d`, `%m ~ 1[0-2]|0[1-9]|[1-9]`, `%d ~ 3[01]|[12]\d|0[1-9]|[1-9]`,
`%H ~ 2[0-3]|[0-1]\d|\d`, `%M,%S ~ [0-5]\d|\d`, `%b ~` abbreviated month
name, case-insensitive.  The whole string must be consumed, and the
resulting field values must form a valid calendar date or the format
fails (`day is out of range for month` etc.).  Alternatives are tried in
regex order (two-digit branches before the one-digit branch); in every
format used here each numeric directive is followed by a non-digit
literal or end of string, so this ordered choice with one-step
backtracking is exactly regex behaviour. -/

structure DParts where
  y : Nat := 1900
  mo : Nat := 1
  dy : Nat := 1
  hr : Nat := 0
  mi : Nat := 0
  se : Nat := 0
deriving DecidableEq, Repr

inductive FTok where
  | Y | Mo | Dy | Bmon | Hr | Mi | Se
  | lit (c : Char)
deriving DecidableEq, Repr

def two (a b : Char) : Nat := digitVal a * 10 + digitVal b

def validMo2 (a b : Char) : Bool :=
  (a = '1' && (b = '0' || b = '1' || b = '2')) || (a = '0' && b.isDigit && b ≠ '0')

def validMo1 (a : Char) : Bool := a.isDigit && a ≠ '0'

def validDy2 (a b : Char) : Bool :=
  (a = '3' && (b = '0' || b = '1')) || ((a = '1' || a = '2') && b.isDigit) ||
    (a = '0' && b.isDigit && b ≠ '0')

def validDy1 (a : Char) : Bool := a.isDigit && a ≠ '0'

def validHr2 (a b : Char) : Bool :=
  (a = '2' && (b = '0' || b = '1' || b = '2' || b = '3')) ||
    ((a = '0' || a = '1') && b.isDigit)

def validMiSe2 (a b : Char) : Bool :=
  (a = '0' || a = '1' || a = '2' || a = '3' || a = '4' || a = '5') && b.isDigit

/-- Candidate (value, remainder) list for a 1-or-2 digit numeric directive,
in regex alternation order. -/
def numCands (valid2 : Char → Char → Bool) (valid1 : Char → Bool) :
    List Char → List (Nat × List Char)
  | a :: b :: rest =>
    (if valid2 a b then [(two a b, rest)] else []) ++
      (if valid1 a then [(digitVal a, b :: rest)] else [])
  | [a] => if valid1 a then [(digitVal a, [])] else []
  | [] => []

/-- `%Y`: exactly four digits. -/
def candsY : List Char → List (Nat × List Char)
  | a :: b :: c :: d :: rest =>
    if a.isDigit && b.isDigit && c.isDigit && d.isDigit then
      [((two a b) * 100 + two c d, rest)]
    else []
  | _ => []

def monthNames : List (List Char × Nat) :=
  [(['j','a','n'], 1), (['f','e','b'], 2), (['m','a','r'], 3), (['a','p','r'], 4),
   (['m','a','y'], 5), (['j','u','n'], 6), (['j','u','l'], 7), (['a','u','g'], 8),
   (['s','e','p'], 9), (['o','c','t'], 10), (['n','o','v'], 11), (['d','e','c'], 12)]

/-- `%b`: three-letter month abbreviation, case-insensitive. -/
def candsB : List Char → List (Nat × List Char)
  | a :: b :: c :: rest =>
    match monthNames.find? (fun p => p.1 = [a.toLower, b.toLower, c.toLower]) with
    | some p => [(p.2, rest)]
    | none => []
  | _ => []

def FTok.cands : FTok → List Char → List (Nat × List Char)
  | .Y, cs => candsY cs
  | .Mo, cs => numCands validMo2 validMo1 cs
  | .Dy, cs => numCands validDy2 validDy1 cs
  | .Bmon, cs => candsB cs
  | .Hr, cs => numCands validHr2 (fun a => a.isDigit) cs
  | .Mi, cs => numCands validMiSe2 (fun a => a.isDigit) cs
  | .Se, cs => numCands validMiSe2 (fun a => a.isDigit) cs
  | .lit _, _ => []

def FTok.put : FTok → DParts → Nat → DParts
  | .Y, p, v => { p with y := v }
  | .Mo, p, v => { p with mo := v }
  | .Dy, p, v => { p with dy := v }
  | .Bmon, p, v => { p with mo := v }
  | .Hr, p, v => { p with hr := v }
  | .Mi, p, v => { p with mi := v }
  | .Se, p, v => { p with se := v }
  | .lit _, p, _ => p

/-- Match a token sequence against the whole character list, with the
one-step backtracking described above. -/
def parseToks : List FTok → List Char → Option DParts
  | [], [] => some {}
  | [], _ :: _ => none
  | .lit _ :: _, [] => none
  | .lit c :: ts, c2 :: rest => if c2 = c then parseToks ts rest else none
  | t :: ts, cs =>
    match t.cands cs with
    | [] => none
    | [(v, rest)] => (parseToks ts rest).map (fun p => t.put p v)
    | (v1, r1) :: (v2, r2) :: _ =>
      match parseToks ts r1 with
      | some p => some (t.put p v1)
      | none => (parseToks ts r2).map (fun p => t.put p v2)

def isLeap (y : Nat) : Bool := y % 4 = 0 && (y % 100 ≠ 0 || y % 400 = 0)

def daysInMonth (y m : Nat) : Nat :=
  if m = 2 then (if isLeap y then 29 else 28)
  else if m = 4 || m = 6 || m = 9 || m = 11 then 30
  else 31

/-- `datetime(...)` construction: validates the calendar date. -/
def mkDT (p : DParts) : Option DT :=
  if 1 ≤ p.y && p.y ≤ 9999 && 1 ≤ p.mo && p.mo ≤ 12 && 1 ≤ p.dy &&
      p.dy ≤ daysInMonth p.y p.mo && p.hr ≤ 23 && p.mi ≤ 59 && p.se ≤ 59 then
    some ⟨p.y, p.mo, p.dy, p.hr, p.mi, p.se⟩
  else none

def strptime (fmt : List FTok) (cs : List Char) : Option DT :=
  (parseToks fmt cs).bind mkDT

/-- The format list of `DataProcessor.parse_date`, in source order. -/
def dateFormats : List (List FTok) :=
  [ [.Y, .lit '-', .Mo, .lit '-', .Dy],
    [.Mo, .lit '/', .Dy, .lit '/', .Y],
    [.Dy, .lit '/', .Mo, .lit '/', .Y],
    [.Y, .lit '/', .Mo, .lit '/', .Dy],
    [.Dy, .lit '-', .Mo, .lit '-', .Y],
    [.Dy, .lit '-', .Bmon, .lit '-', .Y],
    [.Dy, .lit ' ', .Bmon, .lit ' ', .Y],
    [.Dy, .lit '/', .Mo, .lit '/', .Y, .lit ' ', .Hr, .lit ':', .Mi],
    [.Y, .lit '-', .Mo, .lit '-', .Dy, .lit ' ', .Hr, .lit ':', .Mi, .lit ':', .Se],
    [.Dy, .lit '/', .Mo, .lit '/', .Y, .lit ' ', .Hr, .lit ':', .Mi, .lit ':', .Se] ]

def tryFormats : List (List FTok) → List Char → Option DT
  | [], _ => none
  | f :: fs, cs =>
    match strptime f cs with
    | some d => some d
    | none => tryFormats fs cs

/-- `DataProcessor.parse_date`.  `now` is the value `datetime.now()` would
return at the moment of the call; the source falls back to it both for
empty input and when no format matches. -/
def parse_date (now : DT) (dateStr : String) : DT :=
  if pyStrip dateStr = "" then now
  else
    match tryFormats dateFormats (pyStrip dateStr).toList with
    | some d => d
    | none => now

/-! ## Python `float` model

A finite value is an exact scaled decimal `m * 10 ^ e`; `float('nan')`,
`float('inf')` and `float('-inf')` are the three special values.  The
binary64 rounding of a parsed literal is not modelled (it never changes
the sign of a value, which is all the ingestion code inspects). -/

structure Dec where
  m : Int
  e : Int
deriving DecidableEq, Repr

inductive PyFloat where
  | finite (d : Dec)
  | pinf
  | ninf
  | nan
deriving DecidableEq, Repr

/-- The rational value of a finite float. -/
def Dec.toRat (d : Dec) : ℚ := (d.m : ℚ) * (10 : ℚ) ^ d.e

/-- Consume a maximal run of digits allowing single underscores strictly
between digits (Python numeric-literal rule for `float(str)`); an
ill-placed underscore is left in the remainder, where it fails the
overall parse exactly as `float` raises `ValueError`. -/
def digitsRun : List Char → (List Nat × List Char)
  | c :: '_' :: c2 :: cs =>
    if c.isDigit && c2.isDigit then
      let r := digitsRun (c2 :: cs)
      (digitVal c :: r.1, r.2)
    else if c.isDigit then ([digitVal c], '_' :: c2 :: cs)
    else ([], c :: '_' :: c2 :: cs)
  | c :: cs =>
    if c.isDigit then
      let r := digitsRun cs
      (digitVal c :: r.1, r.2)
    else ([], c :: cs)
  | [] => ([], [])

def natOfDigits (ds : List Nat) : Nat := ds.foldl (fun a d => a * 10 + d) 0

/-- `float(s)` on an already stripped, lowercased string: sign, then
`inf`/`infinity`/`nan`, else mantissa digits with optional fraction and
exponent; the whole string must be consumed. -/
def parseFloatL (cs0 : List Char) : Option PyFloat :=
  let sgn : Int := match cs0 with | '-' :: _ => -1 | _ => 1
  let cs := match cs0 with | '+' :: r => r | '-' :: r => r | r => r
  if cs = ['i','n','f'] || cs = ['i','n','f','i','n','i','t','y'] then
    some (if sgn = 1 then .pinf else .ninf)
  else if cs = ['n','a','n'] then some .nan
  else
    let ipr := digitsRun cs
    let fpr : Option (List Nat) × List Char :=
      match ipr.2 with
      | '.' :: r => let d := digitsRun r; (some d.1, d.2)
      | r => (none, r)
    if ipr.1 = [] && (fpr.1 = none || fpr.1 = some []) then none
    else
      let frac := fpr.1.getD []
      let mant : Int := sgn * (natOfDigits (ipr.1 ++ frac) : Int)
      let fracLen : Int := (frac.length : Int)
      match fpr.2 with
      | 'e' :: r =>
        let esgn : Int := match r with | '-' :: _ => -1 | _ => 1
        let r2 := match r with | '+' :: rr => rr | '-' :: rr => rr | rr => rr
        let ed := digitsRun r2
        if ed.1 = [] || ed.2 ≠ [] then none
        else some (.finite ⟨mant, esgn * (natOfDigits ed.1 : Int) - fracLen⟩)
      | [] => some (.finite ⟨mant, -fracLen⟩)
      | _ => none

def parseFloat (s : String) : Option PyFloat :=
  parseFloatL (s.toList.map Char.toLower)

/-- The character class `[KES$€£,\s]` of `DataProcessor.parse_amount`
(note: the uppercase letters `K`, `E`, `S` only). -/
def isStrippedAmountChar (c : Char) : Bool :=
  c = 'K' || c = 'E' || c = 'S' || c = '$' || c = '€' || c = '£' || c = ',' || isPySpace c

/-- `DataProcessor.parse_amount`: empty input and parse failures yield
`0.0`; currency symbols, commas and whitespace are deleted first. -/
def parse_amount (s : String) : PyFloat :=
  if s = "" then .finite ⟨0, 0⟩
  else
    let cleaned : List Char := (pyStrip s).toList.filter (fun c => !isStrippedAmountChar c)
    match parseFloatL (cleaned.map Char.toLower) with
    | some v => v
    | none => .finite ⟨0, 0⟩

/-- Python `amount <= 0` (false for `nan`, the IEEE comparison). -/
def pyLeZero : PyFloat → Bool
  | .finite d => d.m ≤ 0
  | .pinf => false
  | .ninf => true
  | .nan => false

/-- Python `amount > 0` (false for `nan`). -/
def pyGtZero : PyFloat → Bool
  | .finite d => 0 < d.m
  | .pinf => true
  | .ninf => false
  | .nan => false

/-! ## Categorizer (`DataProcessor.categorize_transaction`) -/

def electronicsWords : List String :=
  ["phone", "laptop", "computer", "tablet", "tv", "electronics", "camera",
   "iphone", "samsung"]

def accessoriesWords : List String :=
  ["case", "charger", "cable", "headphone", "earphone", "adapter", "cover",
   "screen protector"]

def foodWords : List String :=
  ["food", "meal", "lunch", "dinner", "breakfast", "restaurant", "cafe", "snack"]

def servicesWords : List String :=
  ["service", "repair", "maintenance", "consultation", "delivery", "shipping"]

def categorize_transaction (item : String) (details : String) : String :=
  let text := strLower (item ++ " " ++ details)
  if electronicsWords.any (fun w => containsStr text w) then "Electronics"
  else if accessoriesWords.any (fun w => containsStr text w) then "Accessories"
  else if foodWords.any (fun w => containsStr text w) then "Food & Beverage"
  else if servicesWords.any (fun w => containsStr text w) then "Services"
  else "Other"

/-! ## Field resolver (`DataProcessor.COLUMN_MAPPINGS` / `find_column`) -/

def COLUMN_MAPPINGS (field : String) : List String :=
  if field = "date" then
    ["date", "Date", "DATE", "timestamp", "Timestamp", "time", "Time",
     "completion_time", "Completion Time", "transaction_date", "Transaction Date"]
  else if field = "amount" then
    ["amount", "Amount", "AMOUNT", "price", "Price", "total", "Total",
     "paid_in", "Paid In", "withdrawn", "Withdrawn", "value", "Value"]
  else if field = "item" then
    ["item", "Item", "ITEM", "product", "Product", "description", "Description",
     "details", "Details", "name", "Name", "transaction_details", "Transaction Details"]
  else if field = "category" then
    ["category", "Category", "CATEGORY", "type", "Type", "class", "Class"]
  else if field = "payment_method" then
    ["payment_method", "Payment Method", "method", "Method",
     "payment_type", "Payment Type", "mode", "Mode"]
  else if field = "receipt_no" then
    ["receipt_no", "Receipt No", "receipt", "Receipt", "transaction_id",
     "Transaction ID", "id", "ID"]
  else []

/-- First loop of `find_column`: `for header in headers: if header in
possible_names: return header`. -/
def exactScan (possible : List String) : List String → Option String
  | [] => none
  | h :: rest => if possible.contains h then some h else exactScan possible rest

/-- Whether one alias occurs (case-insensitively) inside a lowered,
stripped header. -/
def substrHit (possible : List String) (h : String) : Bool :=
  possible.any (fun p => containsStr (pyStrip (strLower h)) (strLower p))

/-- Second loop of `find_column`: case-insensitive substring pass. -/
def substrScan (possible : List String) : List String → Option String
  | [] => none
  | h :: rest => if substrHit possible h then some h else substrScan possible rest

/-- `DataProcessor.find_column`. -/
def find_column (headers : List String) (field : String) : Option String :=
  match exactScan (COLUMN_MAPPINGS field) headers with
  | some h => some h
  | none => substrScan (COLUMN_MAPPINGS field) headers

/-! ## Transaction id (`DataProcessor.generate_transaction_id`)

`h16` models the external library composite
`lambda s: hashlib.md5(s.encode()).hexdigest()[:16]` and `fr` models
`str(float)` as used by the f-string `f"{date.isoformat()}{amount}{item}"`. -/

def generate_transaction_id (h16 : String → String) (fr : PyFloat → String)
    (date : DT) (amount : PyFloat) (item : String) (receipt_no : String) : String :=
  if receipt_no ≠ "" then h16 receipt_no
  else h16 (date.iso ++ fr amount ++ item)

/-! ## CSV reading (`csv.DictReader` on simple input)

The model covers LF-separated, unquoted CSV text, which is the shape of
every input considered here.  `DictReader` pads short rows with `None`
and collects extra fields under a `None` key; the model instead pairs
headers with fields positionally and lets a missing key fall back to
the `row.get` default — on every code path below the two give the same
parsed transaction, except that a short row stores `None` instead of
`"Cash"`/`""` for a missing payment-method/receipt cell, a case no
claim touches. -/

def stripBOM (s : String) : String :=
  match s.toList with
  | '\uFEFF' :: rest => ⟨rest⟩
  | _ => s

def csvLines (s : String) : List String :=
  (splitOnChar '\n' s.toList).map (fun l => ⟨l⟩)

/-- `reader.fieldnames or []`; an empty first line gives no headers. -/
def parseHeaders (content : String) : List String :=
  match csvLines (stripBOM content) with
  | [] => []
  | h :: _ => if h = "" then [] else (splitOnChar ',' h.toList).map (fun l => ⟨l⟩)

/-- The data rows yielded by `DictReader` (blank lines are skipped). -/
def dataLines (content : String) : List String :=
  match csvLines (stripBOM content) with
  | [] => []
  | _ :: rest => rest.filter (fun l => l ≠ "")

def mkRow (headers : List String) (line : String) : List (String × String) :=
  headers.zip ((splitOnChar ',' line.toList).map (fun l => ⟨l⟩))

/-- `row.get(col, dflt) if col else dflt`. -/
def rowGet (row : List (String × String)) (col : Option String) (dflt : String) : String :=
  match col with
  | none => dflt
  | some c =>
    match row.find? (fun p => p.1 = c) with
    | some p => p.2
    | none => dflt

/-! ## Canonical transaction records -/

structure Transaction where
  id : String
  date : String
  timestamp : String
  item : String
  amount : PyFloat
  category : String
  payment_method : String
  source_type : String
  receipt_no : String
deriving DecidableEq, Repr

/-- The body of the per-row `try` block of `DataProcessor.parse_csv`:
`none` means the row was skipped (the `continue` branch).  No statement
in the block can raise for the row shapes modelled here, so the
`except` path coincides with the amount check. -/
def processRow (h16 : String → String) (fr : PyFloat → String) (now : DT)
    (sourceType : String)
    (dateCol amountCol itemCol categoryCol methodCol receiptCol : Option String)
    (row : List (String × String)) : Option Transaction :=
  let date := parse_date now (rowGet row dateCol "")
  let amount := parse_amount (rowGet row amountCol "0")
  if pyLeZero amount then none
  else
    let item0 := rowGet row itemCol "Unknown Item"
    let item := if pyStrip item0 = "" then "Unknown Item" else item0
    let category0 := rowGet row categoryCol ""
    let category := if category0 = "" then categorize_transaction item "" else category0
    let method := rowGet row methodCol "Cash"
    let receipt := rowGet row receiptCol ""
    some { id := generate_transaction_id h16 fr date amount item receipt,
           date := date.dateStr,
           timestamp := date.iso,
           item := pyStrip item,
           amount := amount,
           category := category,
           payment_method := method,
           source_type := sourceType,
           receipt_no := receipt }

/-- The two mandatory-column checks of `parse_csv`, in source order;
the messages are the `ValueError` arguments. -/
def mandatoryCheck (headers : List String) : Except String Unit :=
  if find_column headers "date" = none ∧ find_column headers "receipt_no" = none then
    .error ("CSV must contain a date/time column. Found columns: " ++ joinSep ", " headers)
  else if find_column headers "amount" = none then
    .error ("CSV must contain an amount column. Found columns: " ++ joinSep ", " headers)
  else
    .ok ()

/-- The `NameError` message produced when the final guard evaluates
`idx` after a loop over zero rows. -/
def nameIdxMsg : String := "name \x27idx\x27 is not defined"

def noValidMsg (processed skipped : Nat) : String :=
  "No valid transactions found in CSV. Processed " ++ Nat.repr processed ++
    " rows, skipped " ++ Nat.repr skipped ++ ". Please check your data format."

/-- `DataProcessor.parse_csv`.  Every `ValueError` raised inside the
outer `try` is re-raised by the final `except Exception` handler as
`ValueError("Failed to parse CSV: " + str(e))`, hence the uniform
prefix.  The returned pair is the transaction list together with the
`skipped` counter (which the source only logs, and interpolates into
the no-valid-transactions message). -/
def parse_csv (h16 : String → String) (fr : PyFloat → String) (now : DT)
    (content : String) (sourceType : String) :
    Except String (List Transaction × Nat) :=
  let headers := parseHeaders content
  if headers = [] then .error ("Failed to parse CSV: " ++ "CSV has no headers")
  else
    match mandatoryCheck headers with
    | .error e => .error ("Failed to parse CSV: " ++ e)
    | .ok _ =>
      let dateCol := find_column headers "date"
      let amountCol := find_column headers "amount"
      let itemCol := find_column headers "item"
      let categoryCol := find_column headers "category"
      let methodCol := find_column headers "payment_method"
      let receiptCol := find_column headers "receipt_no"
      let rows := (dataLines content).map (mkRow headers)
      let step := fun (acc : List Transaction × Nat) row =>
        match processRow h16 fr now sourceType dateCol amountCol itemCol
            categoryCol methodCol receiptCol row with
        | some t => (t :: acc.1, acc.2)
        | none => (acc.1, acc.2 + 1)
      let res := rows.foldl step ([], 0)
      let transactions := res.1.reverse
      if transactions = [] then
        if rows.length = 0 then .error ("Failed to parse CSV: " ++ nameIdxMsg)
        else .error ("Failed to parse CSV: " ++ noValidMsg rows.length res.2)
      else .ok (transactions, res.2)

/-! ## BigQuery normalization and the ingestion endpoint -/

structure NormalizedRow where
  id : String
  user_id : String
  date : String
  timestamp : String
  item : String
  amount : PyFloat
  category : String
  payment_method : String
  source : String
  meta_receipt_no : String
  meta_processed_at : String
deriving DecidableEq, Repr

/-- `DataProcessor.normalize_for_bigquery`; `nowI` models the
`datetime.now()` used for the `processed_at` metadata field. -/
def normalize_for_bigquery (nowI : DT) (userId : String)
    (transactions : List Transaction) : List NormalizedRow :=
  transactions.map (fun t =>
    { id := t.id,
      user_id := userId,
      date := t.date,
      timestamp := t.timestamp,
      item := t.item,
      amount := t.amount,
      category := t.category,
      payment_method := t.payment_method,
      source := t.source_type,
      meta_receipt_no := t.receipt_no,
      meta_processed_at := nowI.iso })

/-- One entry of `ingestion_status_cache` / the `IngestionStatus`
response model (`rows_processed` is `Optional[int]`). -/
structure IngStatus where
  ingestion_id : String
  status : String
  rows_uploaded : Nat
  rows_processed : Option Nat
  message : String
deriving DecidableEq, Repr

/-- `process_and_ingest_task`: normalizes, hands the batch to
`bq_client.insert_rows` (whose outcome is the `sinkRes` parameter —
`BigQueryClient.insert_rows` performs a `WRITE_APPEND` batch load with
no uniqueness constraint), and writes the final cache entry.  Returns
that entry together with the rows durably written. -/
def process_and_ingest_task (nowI : DT) (sinkRes : Except String Unit)
    (ingestionId userId : String) (rows : List Transaction) :
    IngStatus × List NormalizedRow :=
  let normalized := normalize_for_bigquery nowI userId rows
  match sinkRes with
  | .ok _ =>
    ({ ingestion_id := ingestionId,
       status := "completed",
       rows_uploaded := rows.length,
       rows_processed := some normalized.length,
       message := "Successfully processed " ++ Nat.repr normalized.length ++ " rows" },
     normalized)
  | .error e =>
    ({ ingestion_id := ingestionId,
       status := "failed",
       rows_uploaded := rows.length,
       rows_processed := some 0,
       message := "Error: " ++ e }, [])

/-- The observable outcome of one `POST /upload/csv` request:
the HTTP response (an `HTTPException` detail string on error), the
successive writes to `ingestion_status_cache` for the new id, and the
rows durably appended to the BigQuery `transactions` table. -/
structure UploadOutcome where
  response : Except String IngStatus
  statusWrites : List IngStatus
  sinkWrites : List NormalizedRow

/-- `upload_csv` followed by its background `process_and_ingest_task`
(the task always runs after submission; the response itself is built
before the task completes, which is why it still reads `processing`). -/
def upload_csv_model (h16 : String → String) (fr : PyFloat → String)
    (now nowI : DT) (sinkRes : Except String Unit)
    (ingestionId userId filename sourceType : String)
    (content : String) : UploadOutcome :=
  if strEndsWith filename ".csv" = false then
    ⟨.error "Only CSV files are supported", [], []⟩
  else
    match parse_csv h16 fr now content sourceType with
    | .error e => ⟨.error ("Failed to parse CSV: " ++ e), [], []⟩
    | .ok (rows, _) =>
      if rows = [] then ⟨.error "No valid data found in CSV", [], []⟩
      else
        let s0 : IngStatus :=
          { ingestion_id := ingestionId,
            status := "processing",
            rows_uploaded := rows.length,
            rows_processed := some 0,
            message := "Processing " ++ Nat.repr rows.length ++ " rows" }
        let task := process_and_ingest_task nowI sinkRes ingestionId userId rows
        ⟨.ok { ingestion_id := ingestionId,
               status := "processing",
               rows_uploaded := rows.length,
               rows_processed := none,
               message := "Processing " ++ Nat.repr rows.length ++ " rows in background" },
         [s0, task.1],
         task.2⟩

def isOkE {ε α : Type} : Except ε α → Bool
  | .ok _ => true
  | .error _ => false

/-! ## Spec-side definitions (for refinement comparisons)

These two follow the wording of the specification, to be compared with
the definitions translated from the source. -/

/-- The claim's reading of column resolution: in the exact pass "the
first alias-list entry having an exact header match wins (alias-list
order is the tie-break)"; then the case-insensitive substring pass in
header order; otherwise unresolved. -/
def find_column_claim (headers : List String) (field : String) : Option String :=
  let possible := COLUMN_MAPPINGS field
  match possible.find? (fun p => headers.contains p) with
  | some p => some p
  | none =>
    headers.find? (fun h => possible.any (fun p => containsStr (strLower h) (strLower p)))

/-- The amended reading: the exact pass returns the first header, in
header order, that exactly equals any alias; the substring pass and the
unresolved case are as the claim states them. -/
def find_column_amended (headers : List String) (field : String) : Option String :=
  match headers.find? (fun h => (COLUMN_MAPPINGS field).contains h) with
  | some h => some h
  | none => headers.find? (fun h => substrHit (COLUMN_MAPPINGS field) h)

/-- The spec's idempotency key, §4.4 steps 4 and 6: `hash(external_reference)`
when the external reference is present and non-empty, else
`hash(occurred_at || amount || item_name)`; the record id is that key
(the truncation/encoding to 16 hex characters lives inside `h16`,
exactly as in the source). -/
def spec_idempotency_id (h16 : String → String) (fr : PyFloat → String)
    (occurredAt : DT) (amount : PyFloat) (itemName externalRef : String) : String :=
  if externalRef = "" then h16 (occurredAt.iso ++ fr amount ++ itemName)
  else h16 externalRef

/-! ## Concrete instances used by the closed theorems

`h0` stands in for the md5-prefix function and `fr0` for `str(float)`
when a closed, fully evaluated statement is needed; every generic
theorem below holds for arbitrary `h16`/`fr`. -/

def h0 : String → String := fun s => s

def fr0 : PyFloat → String := fun _ => "5.0"

def now0 : DT := ⟨2024, 1, 1, 0, 0, 0⟩

def nowB : DT := ⟨2025, 2, 3, 4, 5, 6⟩

/-- Two rows with the same receipt number `ABC123` and different amounts. -/
def contentDup : String := "receipt_no,amount\nABC123,100\nABC123,250\n"

/-- One row whose date cell is empty (and with no receipt column). -/
def contentBadDate : String := "date,amount\n,5\n"

/-- One row whose amount cell is the string `nan`. -/
def contentNan : String := "date,amount\n2024-01-15,nan\n"

/-- A 100-row batch: 99 well-formed rows and one malformed row
(amount `0`). -/
def content100 : String :=
  "date,amount\n" ++ String.join (List.replicate 99 "2024-01-15,10\n") ++
    "2024-01-15,0\n"

/-- A file with no column resolvable to the amount field. -/
def contentNoAmount : String := "date,foo\n2024-01-15,2\n"

/-- A syntactically valid file whose single data row is rejected. -/
def contentAllRejected : String := "date,amount\n2024-01-15,0\n"

/-- A two-row batch: one accepted row, one rejected row. -/
def contentMixed : String := "date,amount\n2024-01-15,10\n2024-01-15,0\n"

/-- The first transaction parsed from `contentDup` (with `h0`/`fr0`/`now0`). -/
def txDup1 : Transaction :=
  { id := "ABC123", date := "2024-01-01", timestamp := "2024-01-01T00:00:00",
    item := "Unknown Item", amount := .finite ⟨100, 0⟩, category := "Other",
    payment_method := "Cash", source_type := "csv", receipt_no := "ABC123" }

/-- The second transaction parsed from `contentDup`. -/
def txDup2 : Transaction :=
  { id := "ABC123", date := "2024-01-01", timestamp := "2024-01-01T00:00:00",
    item := "Unknown Item", amount := .finite ⟨250, 0⟩, category := "Other",
    payment_method := "Cash", source_type := "csv", receipt_no := "ABC123" }

/-- The single accepted transaction parsed from `contentMixed`. -/
def txMixed : Transaction :=
  { id := "2024-01-15T00:00:005.0Unknown Item", date := "2024-01-15",
    timestamp := "2024-01-15T00:00:00", item := "Unknown Item",
    amount := .finite ⟨10, 0⟩, category := "Other",
    payment_method := "Cash", source_type := "csv", receipt_no := "" }

/-! # Supporting lemmas -/

theorem exactScan_eq_find (possible : List String) (hs : List String) :
    exactScan possible hs = hs.find? (fun h => possible.contains h) := by
  induction hs with
  | nil => rfl
  | cons h t ih =>
    unfold exactScan
    rw [List.find?_cons]
    cases hc : possible.contains h with
    | true => simp only [hc]; rfl
    | false => simp only [hc]; exact ih

theorem substrScan_eq_find (possible : List String) (hs : List String) :
    substrScan possible hs = hs.find? (fun h => substrHit possible h) := by
  induction hs with
  | nil => rfl
  | cons h t ih =>
    unfold substrScan
    rw [List.find?_cons]
    cases hc : substrHit possible h with
    | true => simp only [hc]; rfl
    | false => simp only [hc]; exact ih

/-- The model's `amount <= 0` test on a finite float agrees with the
rational value of the scaled decimal. -/
theorem pyLeZero_finite_iff (d : Dec) : pyLeZero (.finite d) = true ↔ d.toRat ≤ 0 := by
  have hp : (0:ℚ) < (10:ℚ) ^ d.e := zpow_pos (by norm_num) d.e
  simp only [pyLeZero, Dec.toRat, decide_eq_true_eq]
  constructor
  · intro h
    have hm : (d.m : ℚ) ≤ 0 := by exact_mod_cast h
    nlinarith
  · intro h
    by_contra hc
    have hm : (0:ℚ) < (d.m : ℚ) := by exact_mod_cast not_le.mp hc
    nlinarith

/-- The model's `amount > 0` test on a finite float agrees with the
rational value of the scaled decimal. -/
theorem pyGtZero_finite_iff (d : Dec) : pyGtZero (.finite d) = true ↔ 0 < d.toRat := by
  have hp : (0:ℚ) < (10:ℚ) ^ d.e := zpow_pos (by norm_num) d.e
  simp only [pyGtZero, Dec.toRat, decide_eq_true_eq]
  constructor
  · intro h
    have hm : (0:ℚ) < (d.m : ℚ) := by exact_mod_cast h
    nlinarith
  · intro h
    by_contra hc
    have hm : (d.m : ℚ) ≤ 0 := by exact_mod_cast not_lt.mp hc
    nlinarith

theorem listApp_cancel_right {α : Type} (a b c : List α) (h : a ++ c = b ++ c) :
    a = b := by
  have h2 := congrArg List.reverse h
  rw [List.reverse_append, List.reverse_append] at h2
  have h3 := List.append_cancel_left h2
  have h4 := congrArg List.reverse h3
  rwa [List.reverse_reverse, List.reverse_reverse] at h4

theorem strApp_cancel_right (a b c : String) (h : a ++ c = b ++ c) : a = b := by
  cases a with
  | mk da =>
    cases b with
    | mk db =>
      cases c with
      | mk dc =>
        have h2 : da ++ dc = db ++ dc := congrArg String.data h
        rw [listApp_cancel_right da db dc h2]

/-- `parse_csv` never returns an empty transaction list: the final
guard raises instead. -/
theorem parse_csv_ok_ne_nil (h16 : String → String) (fr : PyFloat → String)
    (now : DT) (content sourceType : String) (ts : List Transaction) (sk : Nat)
    (h : parse_csv h16 fr now content sourceType = .ok (ts, sk)) : ts ≠ [] := by
  simp only [parse_csv] at h
  split at h
  · exact absurd h (by simp)
  · split at h
    · exact absurd h (by simp)
    · split at h
      · split at h <;> exact absurd h (by simp)
      · rename_i hne
        injection h with h2
        cases h2
        exact hne

/-- A parse failure makes the upload endpoint fail before any status
record is written. -/
theorem upload_parse_error (h16 : String → String) (fr : PyFloat → String)
    (now nowI : DT) (sinkRes : Except String Unit)
    (jid uid fn st content e : String)
    (hfn : strEndsWith fn ".csv" = true)
    (hp : parse_csv h16 fr now content st = .error e) :
    upload_csv_model h16 fr now nowI sinkRes jid uid fn st content =
      ⟨.error ("Failed to parse CSV: " ++ e), [], []⟩ := by
  simp [upload_csv_model, hfn, hp]

/-- If the amount column is unresolved, the mandatory-column check
fails (with the date-column message when date and receipt are also
unresolved, else with the amount-column message). -/
theorem mandatoryCheck_amount_none (hdrs : List String)
    (h : find_column hdrs "amount" = none) :
    isOkE (mandatoryCheck hdrs) = false := by
  unfold mandatoryCheck
  split <;> rfl

/-- If date and receipt are both unresolved, the mandatory-column
check fails. -/
theorem mandatoryCheck_date_none (hdrs : List String)
    (h1 : find_column hdrs "date" = none)
    (h2 : find_column hdrs "receipt_no" = none) :
    isOkE (mandatoryCheck hdrs) = false := by
  unfold mandatoryCheck
  rw [if_pos ⟨h1, h2⟩]
  rfl

/-- A failed mandatory check makes `parse_csv` fail. -/
theorem parse_csv_mandatory_err (h16 : String → String) (fr : PyFloat → String)
    (now : DT) (content sourceType : String)
    (h : isOkE (mandatoryCheck (parseHeaders content)) = false) :
    isOkE (parse_csv h16 fr now content sourceType) = false := by
  simp only [parse_csv]
  split
  · rfl
  · cases hm : mandatoryCheck (parseHeaders content) with
    | error e => simp [hm, isOkE]
    | ok u => rw [hm] at h; exact absurd h (by simp [isOkE])

/-- A successful parse makes the upload create the initial `processing`
record and then run the background task. -/
theorem upload_parse_ok (h16 : String → String) (fr : PyFloat → String)
    (now nowI : DT) (sinkRes : Except String Unit)
    (jid uid fn st content : String) (ts : List Transaction) (sk : Nat)
    (hfn : strEndsWith fn ".csv" = true)
    (hp : parse_csv h16 fr now content st = .ok (ts, sk)) :
    upload_csv_model h16 fr now nowI sinkRes jid uid fn st content =
      ⟨.ok { ingestion_id := jid, status := "processing",
             rows_uploaded := ts.length, rows_processed := none,
             message := "Processing " ++ Nat.repr ts.length ++ " rows in background" },
       [ { ingestion_id := jid, status := "processing",
           rows_uploaded := ts.length, rows_processed := some 0,
           message := "Processing " ++ Nat.repr ts.length ++ " rows" },
         (process_and_ingest_task nowI sinkRes jid uid ts).1 ],
       (process_and_ingest_task nowI sinkRes jid uid ts).2⟩ := by
  have hne := parse_csv_ok_ne_nil h16 fr now content st ts sk hp
  simp [upload_csv_model, hfn, hp, hne]

/-- The upload endpoint writes no status record and fails the request
whenever the synchronous parse fails. -/
theorem upload_err_of_parse_err (h16 : String → String) (fr : PyFloat → String)
    (now nowI : DT) (sinkRes : Except String Unit)
    (jid uid fn st content : String)
    (hfn : strEndsWith fn ".csv" = true)
    (hp : isOkE (parse_csv h16 fr now content st) = false) :
    (upload_csv_model h16 fr now nowI sinkRes jid uid fn st content).statusWrites = [] ∧
    isOkE (upload_csv_model h16 fr now nowI sinkRes jid uid fn st content).response =
      false := by
  cases hq : parse_csv h16 fr now content st with
  | error e =>
    rw [upload_parse_error h16 fr now nowI sinkRes jid uid fn st content e hfn hq]
    exact ⟨rfl, rfl⟩
  | ok p => rw [hq] at hp; exact absurd hp (by simp [isOkE])

/-! # Claim theorems -/

/-- C1, counterexample: in the mobile-money scenario of the claim — one
file with two rows carrying the same non-empty receipt number `ABC123`
and different amounts — `parse_csv` accepts both rows (no idempotency
lookup exists), and both records, sharing the id derived from the
receipt hash, are committed to the Sink in one job.  The second row is
not rejected as a duplicate, and the Sink receives the same idempotency
key twice. -/
theorem C1_counterexample :
    (parse_csv h0 fr0 now0 contentDup "csv").toOption.map
        (fun p => p.1.map (fun t => (t.receipt_no, t.amount))) =
      some [("ABC123", .finite ⟨100, 0⟩), ("ABC123", .finite ⟨250, 0⟩)] ∧
    (upload_csv_model h0 fr0 now0 now0 (.ok ()) "j1" "u1" "f.csv" "csv"
        contentDup).sinkWrites.countP (fun r => r.id == "ABC123") = 2 ∧
    ¬ (upload_csv_model h0 fr0 now0 now0 (.ok ()) "j1" "u1" "f.csv" "csv"
        contentDup).sinkWrites.countP (fun r => r.id == "ABC123") ≤ 1 := by
  refine ⟨by decide, by decide, by decide⟩

/-- C1, amended: no already-ingested set is consulted anywhere on the
upload path; every row whose amount parses positive is accepted
regardless of duplicate receipt numbers, so the two `ABC123` rows are
both accepted, share the identical id `h16 "ABC123"`, and are both
appended to the Sink (a `WRITE_APPEND` batch load with no uniqueness
constraint) within the same completed job. -/
theorem C1_amended_thm (h16 : String → String) (fr : PyFloat → String)
    (now nowI : DT) (jid uid st : String) :
    (parse_csv h16 fr now contentDup st).toOption.map
        (fun p => p.1.map (fun t => t.id)) =
      some [h16 "ABC123", h16 "ABC123"] ∧
    (upload_csv_model h16 fr now nowI (.ok ()) jid uid "f.csv" st
        contentDup).sinkWrites.map (fun r => r.id) =
      [h16 "ABC123", h16 "ABC123"] ∧
    (upload_csv_model h16 fr now nowI (.ok ()) jid uid "f.csv" st
        contentDup).statusWrites.map (fun s => s.status) =
      ["processing", "completed"] :=
  ⟨rfl, rfl, rfl⟩

/-- C2, counterexample: `parse_date` on an empty string (and on an
unparseable one) returns the current wall-clock time rather than "no
value", and the Record Normalizer accepts the row — the parsed batch
for a file whose only row has an empty date cell contains one
transaction stamped with `now`, instead of rejecting it with reason
`bad_date`. -/
theorem C2_counterexample :
    parse_date now0 "" = now0 ∧
    parse_date now0 "not a date" = now0 ∧
    (parse_csv h0 fr0 now0 contentBadDate "csv").toOption.map
        (fun p => p.1.map (fun t => t.timestamp)) =
      some ["2024-01-01T00:00:00"] ∧
    now0.iso = "2024-01-01T00:00:00" := by
  refine ⟨by decide, by decide, by decide, by decide⟩

/-- C2, amended: for every date string that is empty or matches none of
the accepted format patterns, `parse_date` silently substitutes the
current wall-clock time (`datetime.now()`), and the row is then
processed with that fabricated timestamp rather than being rejected. -/
theorem C2_amended_thm (now : DT) (s : String)
    (h : tryFormats dateFormats (pyStrip s).toList = none) :
    parse_date now s = now := by
  unfold parse_date
  split
  · rfl
  · rw [h]

/-- C2 witness. -/
theorem C2_witness : parse_date now0 "31/31/2024" = now0 :=
  C2_amended_thm now0 "31/31/2024" (by decide)

/-- C5, code evaluated at the failing input: a row whose amount cell is
the string `nan` parses to the float NaN, which the guard
`amount <= 0` does not catch (the IEEE comparison is false), so the row
is accepted into the batch and handed to the Sink with `amount = nan`
— an accepted transaction whose amount is not strictly greater
than 0. -/
theorem C5_thm (h16 : String → String) (fr : PyFloat → String) :
    parse_amount "nan" = .nan ∧
    pyLeZero .nan = false ∧
    pyGtZero .nan = false ∧
    (parse_csv h16 fr now0 contentNan "csv").toOption.map
        (fun p => (p.1.map (fun t => t.amount), p.2)) = some ([.nan], 0) ∧
    (upload_csv_model h16 fr now0 now0 (.ok ()) "j1" "u1" "f.csv" "csv"
        contentNan).sinkWrites.map (fun r => r.amount) = [.nan] :=
  ⟨rfl, rfl, rfl, rfl, rfl⟩

/-- C6, counterexample: with headers `["timestamp", "date"]` and the
date field, the source's exact pass returns the first *header* that
appears anywhere in the alias list (`"timestamp"`), while the claim's
alias-order tie-break would return `"date"` (the first alias-list
entry with an exact header match). -/
theorem C6_counterexample :
    find_column ["timestamp", "date"] "date" = some "timestamp" ∧
    find_column_claim ["timestamp", "date"] "date" = some "date" ∧
    find_column ["timestamp", "date"] "date" ≠
      find_column_claim ["timestamp", "date"] "date" := by
  refine ⟨by decide, by decide, by decide⟩

/-- C6, amended: resolution is two-pass as the claim says, but the
exact, case-sensitive pass returns the first header in *header order*
that equals any alias (header order, not alias-list order, is the
tie-break); the case-insensitive substring pass and the unresolved case
are as claimed. -/
theorem C6_amended_thm (headers : List String) (field : String) :
    find_column headers field = find_column_amended headers field := by
  unfold find_column find_column_amended
  rw [exactScan_eq_find, substrScan_eq_find]

/-- C7: the transaction id is exactly the spec's idempotency key — the
hash of the external reference when it is non-empty, otherwise the hash
of `occurred_at || amount || item_name` (the 16-character truncation
living inside the hash function, as in the source) — and is therefore a
deterministic function of those content fields alone. -/
theorem C7_thm (h16 : String → String) (fr : PyFloat → String)
    (d : DT) (a : PyFloat) (item receipt : String) :
    generate_transaction_id h16 fr d a item receipt =
      spec_idempotency_id h16 fr d a item receipt := by
  unfold generate_transaction_id spec_idempotency_id
  by_cases h : receipt = "" <;> simp [h]

/-- C9: parsing is not a deterministic function of the input bytes —
for the concrete file whose one row has an empty date cell and no
receipt column, two runs of `parse_csv` at wall-clock instants with
distinct isoformats produce an accepted transaction each, with
different `timestamp` values and (for any injective hash) different
`id` values. -/
theorem C9_thm (h16 : String → String) (fr : PyFloat → String)
    (hinj : Function.Injective h16) (now1 now2 : DT)
    (hne : now1.iso ≠ now2.iso) :
    (parse_csv h16 fr now1 contentBadDate "csv").toOption.map
        (fun p => p.1.map (fun t => t.timestamp)) = some [now1.iso] ∧
    (parse_csv h16 fr now2 contentBadDate "csv").toOption.map
        (fun p => p.1.map (fun t => t.timestamp)) ≠
      (parse_csv h16 fr now1 contentBadDate "csv").toOption.map
        (fun p => p.1.map (fun t => t.timestamp)) ∧
    (parse_csv h16 fr now2 contentBadDate "csv").toOption.map
        (fun p => p.1.map (fun t => t.id)) ≠
      (parse_csv h16 fr now1 contentBadDate "csv").toOption.map
        (fun p => p.1.map (fun t => t.id)) := by
  refine ⟨rfl, ?_, ?_⟩
  · show some [now2.iso] ≠ some [now1.iso]
    intro hcon
    injection hcon with hl
    injection hl with hh
    exact hne hh.symm
  · show some [h16 (now2.iso ++ fr (.finite ⟨5, 0⟩) ++ "Unknown Item")] ≠
      some [h16 (now1.iso ++ fr (.finite ⟨5, 0⟩) ++ "Unknown Item")]
    intro hcon
    injection hcon with hl
    injection hl with hh
    have h1 := hinj hh
    have h2 := strApp_cancel_right _ _ _ h1
    have h3 := strApp_cancel_right _ _ _ h2
    exact hne h3.symm

/-- C9 witness: two concrete instants with distinct isoformats yield
different ids and timestamps on the same bytes. -/
theorem C9_witness :
    (parse_csv h0 fr0 nowB contentBadDate "csv").toOption.map
        (fun p => p.1.map (fun t => t.id)) ≠
      (parse_csv h0 fr0 now0 contentBadDate "csv").toOption.map
        (fun p => p.1.map (fun t => t.id)) ∧
    (parse_csv h0 fr0 nowB contentBadDate "csv").toOption.map
        (fun p => p.1.map (fun t => t.timestamp)) ≠
      (parse_csv h0 fr0 now0 contentBadDate "csv").toOption.map
        (fun p => p.1.map (fun t => t.timestamp)) :=
  ⟨(C9_thm h0 fr0 (fun _ _ hx => hx) now0 nowB (by decide)).2.2,
   (C9_thm h0 fr0 (fun _ _ hx => hx) now0 nowB (by decide)).2.1⟩

set_option maxRecDepth 40000 in
/-- C3, counterexample: a 100-row batch with exactly one malformed row
is trimmed to 99 rows during the synchronous parse (the skip is counted
only in the parser-internal `skipped` counter, which equals 1), and the
job's status record then shows `rows_uploaded = 99` and
`rows_processed = 99` with state `completed`: no field of any status
record ever equals 100 (the submitted count) or holds the rejected
count 1, so the rejection is not accounted for in any job counter —
there is no `rows_rejected` counter at all. -/
theorem C3_counterexample :
    (parse_csv h0 fr0 now0 content100 "csv").toOption.map
        (fun p => (p.1.length, p.2)) = some (99, 1) ∧
    (upload_csv_model h0 fr0 now0 now0 (.ok ()) "j1" "u1" "f.csv" "csv"
        content100).statusWrites.map
        (fun s => (s.status, s.rows_uploaded, s.rows_processed)) =
      [("processing", 99, some 0), ("completed", 99, some 99)] ∧
    ((upload_csv_model h0 fr0 now0 now0 (.ok ()) "j1" "u1" "f.csv" "csv"
        content100).statusWrites.map (fun s => s.rows_uploaded)).contains 100 =
      false ∧
    ((upload_csv_model h0 fr0 now0 now0 (.ok ()) "j1" "u1" "f.csv" "csv"
        content100).statusWrites.map (fun s => s.rows_processed)).contains
        (some 1) = false := by
  refine ⟨by decide, by decide, by decide, by decide⟩

/-- C3, amended: malformed rows are dropped during the synchronous
parse, before the job exists; the job's status records carry only the
accepted count (`rows_uploaded = rows_processed =` number of accepted
rows) in states `processing` then `completed`, and the number of
rejected rows appears in no status field (it survives only in the
parser's internal skipped counter). -/
theorem C3_amended_thm (h16 : String → String) (fr : PyFloat → String)
    (now nowI : DT) (jid uid fn st content : String)
    (ts : List Transaction) (sk : Nat)
    (hfn : strEndsWith fn ".csv" = true)
    (hp : parse_csv h16 fr now content st = .ok (ts, sk)) :
    (upload_csv_model h16 fr now nowI (.ok ()) jid uid fn st
        content).statusWrites.map
        (fun s => (s.status, s.rows_uploaded, s.rows_processed)) =
      [("processing", ts.length, some 0), ("completed", ts.length, some ts.length)] := by
  rw [upload_parse_ok h16 fr now nowI (.ok ()) jid uid fn st content ts sk hfn hp]
  simp [process_and_ingest_task, normalize_for_bigquery]

/-- C3 witness: the two-row batch with one rejected row completes with
both counters equal to 1. -/
theorem C3_witness :
    (upload_csv_model h0 fr0 now0 now0 (.ok ()) "j1" "u1" "f.csv" "csv"
        contentMixed).statusWrites.map
        (fun s => (s.status, s.rows_uploaded, s.rows_processed)) =
      [("processing", 1, some 0), ("completed", 1, some 1)] :=
  C3_amended_thm h0 fr0 now0 now0 "j1" "u1" "f.csv" "csv" contentMixed
    [txMixed] 1 (by decide) rfl

/-- C4: if no column resolves to the amount field, or neither a date
column nor a receipt column resolves, the synchronous parse fails with
the precondition `ValueError` before any row is processed, the request
fails, and no status record is ever created; a file whose headers
resolve a receipt column and an amount column but no date column still
passes the mandatory-column check. -/
theorem C4_thm (h16 : String → String) (fr : PyFloat → String)
    (now nowI : DT) (sinkRes : Except String Unit)
    (jid uid fn st content : String)
    (hfn : strEndsWith fn ".csv" = true) :
    (find_column (parseHeaders content) "amount" = none →
      isOkE (parse_csv h16 fr now content st) = false ∧
      (upload_csv_model h16 fr now nowI sinkRes jid uid fn st
          content).statusWrites = [] ∧
      isOkE (upload_csv_model h16 fr now nowI sinkRes jid uid fn st
          content).response = false) ∧
    ((find_column (parseHeaders content) "date" = none ∧
        find_column (parseHeaders content) "receipt_no" = none) →
      isOkE (parse_csv h16 fr now content st) = false ∧
      (upload_csv_model h16 fr now nowI sinkRes jid uid fn st
          content).statusWrites = [] ∧
      isOkE (upload_csv_model h16 fr now nowI sinkRes jid uid fn st
          content).response = false) ∧
    ((find_column (parseHeaders content) "date" = none ∧
        find_column (parseHeaders content) "receipt_no" ≠ none ∧
        find_column (parseHeaders content) "amount" ≠ none) →
      mandatoryCheck (parseHeaders content) = .ok ()) := by
  refine ⟨?_, ?_, ?_⟩
  · intro ha
    have hp := parse_csv_mandatory_err h16 fr now content st
      (mandatoryCheck_amount_none (parseHeaders content) ha)
    have hu := upload_err_of_parse_err h16 fr now nowI sinkRes jid uid fn st
      content hfn hp
    exact ⟨hp, hu.1, hu.2⟩
  · intro hd
    have hp := parse_csv_mandatory_err h16 fr now content st
      (mandatoryCheck_date_none (parseHeaders content) hd.1 hd.2)
    have hu := upload_err_of_parse_err h16 fr now nowI sinkRes jid uid fn st
      content hfn hp
    exact ⟨hp, hu.1, hu.2⟩
  · intro hok
    unfold mandatoryCheck
    rw [if_neg (fun hcon => hok.2.1 hcon.2), if_neg hok.2.2]

/-- C4 witness: a file with no amount column fails with no status
record, and the receipt-and-amount-only header set passes the check. -/
theorem C4_witness :
    isOkE (parse_csv h0 fr0 now0 contentNoAmount "csv") = false ∧
    (upload_csv_model h0 fr0 now0 now0 (.ok ()) "j1" "u1" "f.csv" "csv"
        contentNoAmount).statusWrites = [] ∧
    mandatoryCheck (parseHeaders contentDup) = .ok () :=
  ⟨((C4_thm h0 fr0 now0 now0 (.ok ()) "j1" "u1" "f.csv" "csv" contentNoAmount
      (by decide)).1 (by decide)).1,
   ((C4_thm h0 fr0 now0 now0 (.ok ()) "j1" "u1" "f.csv" "csv" contentNoAmount
      (by decide)).1 (by decide)).2.1,
   (C4_thm h0 fr0 now0 now0 (.ok ()) "j1" "u1" "f.csv" "csv" contentDup
      (by decide)).2.2 ⟨by decide, by decide, by decide⟩⟩

/-- C8, counterexample: for a successfully submitted job the very first
status record written at submission time has state `processing`, not
`queued`, and no record with state `queued` is ever written — the
claimed initial `queued` state does not exist on the code path. -/
theorem C8_counterexample :
    ((upload_csv_model h0 fr0 now0 now0 (.ok ()) "j1" "u1" "f.csv" "csv"
        contentDup).statusWrites.head?.map (fun s => s.status)) =
      some "processing" ∧
    "processing" ≠ "queued" ∧
    ((upload_csv_model h0 fr0 now0 now0 (.ok ()) "j1" "u1" "f.csv" "csv"
        contentDup).statusWrites.map (fun s => s.status)).contains "queued" =
      false := by
  refine ⟨by decide, by decide, by decide⟩

/-- C8, amended: a job's status store sees either no record at all
(the request failed synchronously and no job exists), or exactly the
trace `processing → completed` (and then the sink write succeeded and
the accepted records were durably appended), or exactly
`processing → failed` (and then the sink write failed and nothing was
durably appended); `queued` never occurs and `completed`/`failed` are
terminal. -/
theorem C8_amended_thm (h16 : String → String) (fr : PyFloat → String)
    (now nowI : DT) (sinkRes : Except String Unit)
    (jid uid fn st content : String) :
    ((upload_csv_model h16 fr now nowI sinkRes jid uid fn st
        content).statusWrites = [] ∧
      isOkE (upload_csv_model h16 fr now nowI sinkRes jid uid fn st
        content).response = false) ∨
    ((upload_csv_model h16 fr now nowI sinkRes jid uid fn st
        content).statusWrites.map (fun s => s.status) =
        ["processing", "completed"] ∧
      sinkRes = .ok () ∧
      (upload_csv_model h16 fr now nowI sinkRes jid uid fn st
        content).sinkWrites ≠ []) ∨
    ((upload_csv_model h16 fr now nowI sinkRes jid uid fn st
        content).statusWrites.map (fun s => s.status) =
        ["processing", "failed"] ∧
      isOkE sinkRes = false ∧
      (upload_csv_model h16 fr now nowI sinkRes jid uid fn st
        content).sinkWrites = []) := by
  cases hfn : strEndsWith fn ".csv" with
  | false =>
    left
    constructor <;> simp [upload_csv_model, hfn, isOkE]
  | true =>
    cases hp : parse_csv h16 fr now content st with
    | error e =>
      left
      rw [upload_parse_error h16 fr now nowI sinkRes jid uid fn st content e hfn hp]
      exact ⟨rfl, rfl⟩
    | ok p =>
      obtain ⟨ts, sk⟩ := p
      have hne := parse_csv_ok_ne_nil h16 fr now content st ts sk hp
      rw [upload_parse_ok h16 fr now nowI sinkRes jid uid fn st content ts sk hfn hp]
      cases sinkRes with
      | ok u =>
        right; left
        refine ⟨by simp [process_and_ingest_task], by cases u; rfl, ?_⟩
        simpa [process_and_ingest_task, normalize_for_bigquery] using hne
      | error e2 =>
        right; right
        exact ⟨by simp [process_and_ingest_task], rfl,
          by simp [process_and_ingest_task]⟩

/-- C10: a zero-accepted batch is a whole-batch error at the public
interface — `parse_csv` never returns an empty transaction list (it
raises `ValueError` when all data rows are rejected, and a `NameError`
turned `ValueError` when there are zero data rows), and on any parse
failure the upload request fails with no job status record ever
created. -/
theorem C10_thm (h16 : String → String) (fr : PyFloat → String)
    (now nowI : DT) (sinkRes : Except String Unit)
    (jid uid fn st content : String)
    (hfn : strEndsWith fn ".csv" = true) :
    (∀ ts sk, parse_csv h16 fr now content st = .ok (ts, sk) → ts ≠ []) ∧
    (∀ e, parse_csv h16 fr now content st = .error e →
      (upload_csv_model h16 fr now nowI sinkRes jid uid fn st
          content).statusWrites = [] ∧
      (upload_csv_model h16 fr now nowI sinkRes jid uid fn st
          content).response = .error ("Failed to parse CSV: " ++ e)) :=
  ⟨fun ts sk hp => parse_csv_ok_ne_nil h16 fr now content st ts sk hp,
   fun e hp => by
    rw [upload_parse_error h16 fr now nowI sinkRes jid uid fn st content e hfn hp]
    exact ⟨rfl, rfl⟩⟩

/-- C10 witness: a parse that succeeds yields a non-empty list, and the
all-rows-rejected file fails the request with no status record. -/
theorem C10_witness :
    [txDup1, txDup2] ≠ ([] : List Transaction) ∧
    (upload_csv_model h0 fr0 now0 now0 (.ok ()) "j1" "u1" "f.csv" "csv"
        contentAllRejected).statusWrites = [] :=
  ⟨(C10_thm h0 fr0 now0 now0 (.ok ()) "j1" "u1" "f.csv" "csv" contentDup
      (by decide)).1 [txDup1, txDup2] 0 rfl,
   ((C10_thm h0 fr0 now0 now0 (.ok ()) "j1" "u1" "f.csv" "csv" contentAllRejected
      (by decide)).2
      ("Failed to parse CSV: " ++ noValidMsg 1 1) rfl).1⟩

end Kaya
